import Mathlib

/-!
Shallow embedding of the download-verify-extract-cleanup pipeline of the
TumorNetSolvers repository (files `scripts/setup_dataset.py`,
`scripts/get_models.py`, `scripts/set_env.py`).

The embedding models the observable effects the scripts have: the bytes
written to the destination file of a download, the presence of files and
directories touched by the extractors, the per-resource state transitions of
the two pipeline drivers, and the process environment written by
`set_environment_variables`.  Outcomes of the external world (HTTP responses,
mid-stream network errors, write errors, archive well-formedness, permission
failures) are inputs to the modelled functions, mirroring exactly which
`except` branch of the Python code each one triggers.
-/

/-! ## Fetcher: `download_file` (identical logic in `scripts/setup_dataset.py`
lines 41-83 and `scripts/get_models.py` lines 46-86).

`requests.get(url, stream=True, timeout=60)` either raises a
`RequestException` (`NetResult.requestError`) or yields a response with a
status, an optional `content-length` header, a body, and possibly a
`RequestException` raised mid-iteration of `iter_content`
(`streamError = true`, raised after the delivered body bytes).
`response.raise_for_status()` raises `HTTPError` (a `RequestException`) for
any status `≥ 400`.  A chunk write `file.write(data)` may raise `IOError`;
`writeFailAt = some i` means the write of chunk `i` raises.  The destination
file is modelled by `Option (List Nat)`: `none` means no file exists at
`save_path`, `some bytes` is its content. -/

inductive NetResult where
  | requestError
  | response (status : Nat) (contentLength : Option Nat) (body : List Nat)
      (streamError : Bool)
deriving DecidableEq

structure DlInput where
  net : NetResult
  writeFailAt : Option Nat
deriving DecidableEq

inductive StreamEnd where
  | ok
  | ioErr
  | netErr
deriving DecidableEq

/-- `iter_content(block_size)` with `block_size = 1024` (the literal
`block_size = 1024` of both scripts): splits the response body into
successive chunks of at most 1024 bytes.  Fuel-based structural recursion;
the fuel `body.length` always suffices since each step drops at least one
byte of a non-empty body. -/
def iterContentAux : Nat → List Nat → List (List Nat)
  | 0, _ => []
  | fuel + 1, b => if b = [] then [] else b.take 1024 :: iterContentAux fuel (b.drop 1024)

def iter_content (body : List Nat) : List (List Nat) :=
  iterContentAux body.length body

/-- The `for data in response.iter_content(block_size): file.write(data)`
loop.  Returns the bytes actually written to the (freshly truncated) file and
how the loop ended: `.ok` (all chunks written, body complete), `.ioErr`
(`file.write` raised `IOError` at the chunk indicated by the countdown
`writeFailAt`), or `.netErr` (`iter_content` raised a `RequestException`
after the delivered chunks). -/
def runStream : List (List Nat) → Bool → Option Nat → List Nat × StreamEnd
  | [], streamError, _ => ([], if streamError then .netErr else .ok)
  | c :: cs, streamError, wf =>
    match wf with
    | some 0 => ([], .ioErr)
    | some (i + 1) =>
      let r := runStream cs streamError (some i)
      (c ++ r.1, r.2)
    | none =>
      let r := runStream cs streamError none
      (c ++ r.1, r.2)

/-- The `except requests.exceptions.RequestException` handler of
`download_file`: `if os.path.exists(save_path): os.remove(save_path)`. -/
def requestExceptionCleanup (fs : Option (List Nat)) : Option (List Nat) :=
  if fs.isSome then none else fs

/-- Result of the streaming `with open(save_path, 'wb') as file:` block:
on `.ok` the function returns `True` with the written file on disk; on
`.netErr` the `RequestException` handler removes the (existing) file and
returns `False`; on `.ioErr` the `IOError` handler only logs and returns
`False`, leaving the partially written file in place. -/
def finishStream : List Nat × StreamEnd → Bool × Option (List Nat)
  | (written, .ok) => (true, some written)
  | (written, .netErr) => (false, requestExceptionCleanup (some written))
  | (written, .ioErr) => (false, some written)

/-- `download_file(url, save_path)` of both scripts.  `init` is the file
content at `save_path` before the call (`none` if absent).  Returns the
Python return value and the file content at `save_path` after the call.
`requests.get` failure and `raise_for_status` (status `≥ 400`) both raise a
`RequestException` before the destination file is opened; otherwise
`open(save_path, 'wb')` truncates the file and the body is streamed in
1024-byte chunks. -/
def download_file (inp : DlInput) (init : Option (List Nat)) :
    Bool × Option (List Nat) :=
  match inp.net with
  | .requestError => (false, requestExceptionCleanup init)
  | .response status _cl body streamError =>
    if 400 ≤ status then (false, requestExceptionCleanup init)
    else finishStream (runStream (iter_content body) streamError inp.writeFailAt)

/-! ## Archive extractors -/

/-- What is on disk at an archive path: nothing, a file that fails format
validation, or a well-formed archive with the given entries. -/
inductive ZipArchive where
  | corrupt
  | valid (entries : List String)
deriving DecidableEq

/-- Filesystem slice seen by `extract_zip` (`scripts/setup_dataset.py` lines
85-100): the file at `zip_path`, the target directory `extract_to`, the
entries already extracted into it, and whether writes into it are
permitted. -/
structure ZipFS where
  archive : Option ZipArchive
  dirExists : Bool
  extracted : List String
  writable : Bool
deriving DecidableEq

/-- Which branch of `extract_zip` produced the outcome: success, the
`except zipfile.BadZipFile` branch, or the catch-all `except Exception`
branch (which is what a missing file's `FileNotFoundError` and a
`PermissionError` both fall into). -/
inductive ZipOutcome where
  | ok
  | badZipFile
  | genericError
deriving DecidableEq

/-- `extract_zip(zip_path, extract_to)`.  `os.makedirs(extract_to,
exist_ok=True)` runs first in the `try` block, so the target directory is
created even when the archive file does not exist; a missing file then makes
`zipfile.ZipFile` raise `FileNotFoundError`, caught by the generic
`except Exception` handler (there is no existence pre-check). -/
def extract_zip (fs : ZipFS) : Bool × ZipOutcome × ZipFS :=
  match fs.archive with
  | none => (false, .genericError, { fs with dirExists := true })
  | some .corrupt => (false, .badZipFile, { fs with dirExists := true })
  | some (.valid entries) =>
    if fs.writable then
      (true, .ok, { fs with dirExists := true, extracted := fs.extracted ++ entries })
    else
      (false, .genericError, { fs with dirExists := true })

inductive TarArchive where
  | corrupt
  | valid (entries : List String)
deriving DecidableEq

/-- Filesystem slice seen by `extract_tar_gz` (`scripts/get_models.py` lines
88-113): the file at `tar_file_path`, the extraction directory (the file's
parent), the entries extracted into it, and write permission. -/
structure TarFS where
  archive : Option TarArchive
  dirExists : Bool
  extracted : List String
  writable : Bool
deriving DecidableEq

/-- Which branch of `extract_tar_gz` produced the outcome: success, the
dedicated `except FileNotFoundError` branch (fed by the explicit
`if not tar_path.is_file(): raise FileNotFoundError` pre-check), the
`except tarfile.ReadError` branch, or the `except PermissionError`
branch. -/
inductive TarOutcome where
  | ok
  | fileNotFound
  | readError
  | permissionError
deriving DecidableEq

/-- `extract_tar_gz(tar_file_path)`.  The `is_file` existence check runs
before any other action, so a missing archive produces the dedicated
not-found failure with no filesystem side effect; only afterwards is the
extraction directory created and `tarfile.open(tar_path, "r:gz")`
attempted. -/
def extract_tar_gz (fs : TarFS) : Bool × TarOutcome × TarFS :=
  match fs.archive with
  | none => (false, .fileNotFound, fs)
  | some .corrupt => (false, .readError, { fs with dirExists := true })
  | some (.valid entries) =>
    if fs.writable then
      (true, .ok, { fs with dirExists := true, extracted := fs.extracted ++ entries })
    else
      (false, .permissionError, { fs with dirExists := true })

/-! ## Pipeline driver 1: `setup_data` (`scripts/setup_dataset.py` lines
102-152).

The driver's behaviour depends only on the boolean outcomes of its calls to
`download_file`, `extract_zip` and `os.remove`, so those outcomes are inputs
(`SDEnv`).  The filesystem facts the driver reads or changes are `SDState`:
whether the extraction directory `paths["zip_extract"]` exists and is
non-empty, whether the archive file `paths["zip_download"]` exists, and
whether the file `paths["pth_save_path"]` exists.  A successful
`extract_zip` of the (non-empty) dataset archive populates the extraction
directory, setting `zipExtractNonEmpty`.  Each run also produces the list of
URLs for which `download_file` was invoked (each call issues exactly one
network request). -/

def ZIP_URL : String :=
  "https://huggingface.co/datasets/zeinebH/TumorSimulations/resolve/main/Dataset800_Brain.zip"

def PTH_URL : String :=
  "https://huggingface.co/datasets/zeinebH/TumorSimulations/resolve/main/param_dict.pth"

structure SDState where
  zipExtractNonEmpty : Bool
  zipFileExists : Bool
  pthExists : Bool
deriving DecidableEq

/-- Outcomes of the external calls `setup_data` makes, in source order:
whether `download_file(ZIP_URL, ...)` returns `True`, whether a failed zip
download leaves a file behind (the `IOError` case), whether `extract_zip`
returns `True`, whether `os.remove` of the archive succeeds, and the same
two facts for the PTH download. -/
structure SDEnv where
  zipDownloadOk : Bool
  zipDlLeavesFile : Bool
  zipExtractOk : Bool
  zipRemoveOk : Bool
  pthDownloadOk : Bool
  pthDlLeavesFile : Bool
deriving DecidableEq

structure Stage1Out where
  s : SDState
  zip_success : Bool
  requests : List String
deriving DecidableEq

/-- Stage 1 of `setup_data` (lines 106-127): skip when the extraction
directory already exists and is non-empty (`zip_success = True`), otherwise
download, extract, and on successful extraction remove the archive, treating
a failed removal as non-fatal. -/
def sdStage1 (env : SDEnv) (s : SDState) : Stage1Out :=
  if s.zipExtractNonEmpty then ⟨s, true, []⟩
  else if env.zipDownloadOk then
    if env.zipExtractOk then
      if env.zipRemoveOk then
        ⟨{ s with zipFileExists := false, zipExtractNonEmpty := true }, true, [ZIP_URL]⟩
      else
        ⟨{ s with zipFileExists := true, zipExtractNonEmpty := true }, true, [ZIP_URL]⟩
    else
      ⟨{ s with zipFileExists := true }, false, [ZIP_URL]⟩
  else
    ⟨{ s with zipFileExists := env.zipDlLeavesFile }, false, [ZIP_URL]⟩

/-- How a run of `setup_data` ended: the early `return` at line 131 after
`zip_success` came out false (the PTH stage never runs), or the final
summary at lines 148-152 with the values of `zip_success` and
`pth_success`. -/
inductive SDResult where
  | abortedZip (s : SDState)
  | completed (s : SDState) (zip_success pth_success : Bool)
deriving DecidableEq

def SDResult.state : SDResult → SDState
  | .abortedZip s => s
  | .completed s _ _ => s

def SDResult.zipOk : SDResult → Bool
  | .abortedZip _ => false
  | .completed _ z _ => z

/-- `setup_data()`: stage 1, the hard gate `if not zip_success: return`, then
the PTH stage (skip when the file already exists — an existence-only check —
otherwise download).  Returns the run outcome and the list of URLs
requested. -/
def setup_data (env : SDEnv) (s : SDState) : SDResult × List String :=
  if (sdStage1 env s).zip_success = false then
    (.abortedZip (sdStage1 env s).s, (sdStage1 env s).requests)
  else if (sdStage1 env s).s.pthExists then
    (.completed (sdStage1 env s).s (sdStage1 env s).zip_success true,
      (sdStage1 env s).requests)
  else if env.pthDownloadOk then
    (.completed { (sdStage1 env s).s with pthExists := true }
      (sdStage1 env s).zip_success true, (sdStage1 env s).requests ++ [PTH_URL])
  else
    (.completed { (sdStage1 env s).s with pthExists := env.pthDlLeavesFile }
      (sdStage1 env s).zip_success false, (sdStage1 env s).requests ++ [PTH_URL])

/-! ## Pipeline driver 2: `get_models` (`scripts/get_models.py` lines
115-139). -/

structure Resource where
  URL : String
  NAME : String
deriving DecidableEq

/-- `FILES_TO_DOWNLOAD` of `scripts/get_models.py`, verbatim (including the
doubled `.tar.tar.gz.gz` suffix and the repeated ViT-loss URL of the last
entry, both as in the source). -/
def FILES_TO_DOWNLOAD : List Resource :=
  [ ⟨"https://huggingface.co/zeinebH/TumorNetSolvers/resolve/main/checkpoint_TumorSurrogate_best_ema_dice.tar.gz",
      "ts_dice.tar.gz"⟩,
    ⟨"https://huggingface.co/zeinebH/TumorNetSolvers/resolve/main/checkpoint_TumorSurrogate_best_ema_loss.tar.gz",
      "ts_loss.tar.gz"⟩,
    ⟨"https://huggingface.co/zeinebH/TumorNetSolvers/resolve/main/checkpoint_ViT_best_ema_dice.tar.gz",
      "vit_dice.tar.gz"⟩,
    ⟨"https://huggingface.co/zeinebH/TumorNetSolvers/resolve/main/checkpoint_ViT_best_ema_loss.tar.tar.gz.gz",
      "vit_loss.tar.gz"⟩,
    ⟨"https://huggingface.co/zeinebH/TumorNetSolvers/resolve/main/checkpoint_nnUnet_best_ema_dice.pth.tar.gz",
      "nnUnet_dice.tar.gz"⟩,
    ⟨"https://huggingface.co/zeinebH/TumorNetSolvers/resolve/main/checkpoint_ViT_best_ema_loss.tar.gz",
      "nnUnet_loss.tar.gz"⟩ ]

/-- Outcomes of the external calls for one resource: whether
`download_file` returns `True`, whether a failed download leaves a file at
the save path (the `IOError` case), whether `extract_tar_gz` returns `True`,
and whether `os.remove` of the archive succeeds. -/
structure ResourceOutcome where
  dlOk : Bool
  dlLeavesFile : Bool
  extractOk : Bool
  removeOk : Bool
deriving DecidableEq

def updateKey (f : String → Bool) (k : String) (v : Bool) : String → Bool :=
  fun q => if q = k then v else f q

/-- State threaded through the `for model in FILES_TO_DOWNLOAD` loop:
existence of the archive file at `os.path.join(DOWNLOAD_DIR, NAME)` keyed by
`NAME`, which archives have been extracted, the Python local variable
`tar_success` (`none` while unassigned), and the URLs requested so far. -/
structure GMState where
  fileExists : String → Bool
  extracted : String → Bool
  tar_success : Option Bool
  requests : List String

/-- One iteration of the `get_models` loop (lines 122-135): download (one
network request), and only if the download returned `True`: extract, and on
successful extraction remove the archive (a failed removal is logged but
`tar_success` is still set to `True`).  When the download fails nothing else
happens and `tar_success` is left untouched. -/
def gmProcess (oc : ResourceOutcome) (r : Resource) (s : GMState) : GMState :=
  if oc.dlOk then
    if oc.extractOk then
      if oc.removeOk then
        { s with requests := s.requests ++ [r.URL],
                 fileExists := updateKey (updateKey s.fileExists r.NAME true) r.NAME false,
                 extracted := updateKey s.extracted r.NAME true,
                 tar_success := some true }
      else
        { s with requests := s.requests ++ [r.URL],
                 fileExists := updateKey s.fileExists r.NAME true,
                 extracted := updateKey s.extracted r.NAME true,
                 tar_success := some true }
    else
      { s with requests := s.requests ++ [r.URL],
               fileExists := updateKey s.fileExists r.NAME true,
               tar_success := some false }
  else
    { s with requests := s.requests ++ [r.URL],
             fileExists := updateKey s.fileExists r.NAME oc.dlLeavesFile }

def gmLoop (o : Resource → ResourceOutcome) : List Resource → GMState → GMState
  | [], s => s
  | r :: rs, s => gmLoop o rs (gmProcess (o r) r s)

/-- How `get_models` ended: the read of the local `tar_success` at line 137
while it was never assigned raises `UnboundLocalError`, otherwise the
function logs (or not) and returns normally. -/
inductive GMResult where
  | unboundLocalError (s : GMState)
  | returned (s : GMState)

def GMResult.state : GMResult → GMState
  | .unboundLocalError s => s
  | .returned s => s

def GMResult.isUnbound : GMResult → Bool
  | .unboundLocalError _ => true
  | .returned _ => false

/-- `get_models()`: loop over `FILES_TO_DOWNLOAD` (there is no
already-downloaded skip check of any kind), then evaluate
`if not tar_success`, which raises `UnboundLocalError` when no iteration
ever assigned `tar_success`.  `fs0` and `ex0` describe the files and
extracted archives already on disk before the run. -/
def get_models (o : Resource → ResourceOutcome) (fs0 ex0 : String → Bool) : GMResult :=
  match (gmLoop o FILES_TO_DOWNLOAD ⟨fs0, ex0, none, []⟩).tar_success with
  | none => .unboundLocalError (gmLoop o FILES_TO_DOWNLOAD ⟨fs0, ex0, none, []⟩)
  | some _ => .returned (gmLoop o FILES_TO_DOWNLOAD ⟨fs0, ex0, none, []⟩)

/-! ## `set_environment_variables` (`scripts/set_env.py` lines 4-12). -/

/-- `os.path.join(a, b)` for a relative second component. -/
def os_path_join (a b : String) : String :=
  if a.endsWith "/" ∨ a = "" then a ++ b else a ++ "/" ++ b

/-- A single `os.environ[k] = v` assignment on the process environment,
modelled as a map from variable names to optional values. -/
def setEnvItem (env : String → Option String) (k v : String) : String → Option String :=
  fun q => if q = k then some v else env q

/-- `set_environment_variables()`: the three sequential `os.environ`
assignments, with `mount_dir = AppConfig.PAMOUNT_DIR`. -/
def set_environment_variables (mount_dir : String) (env : String → Option String) :
    String → Option String :=
  setEnvItem
    (setEnvItem
      (setEnvItem env "nnUNet_raw" (os_path_join mount_dir "raw_data"))
      "nnUNet_preprocessed" (os_path_join mount_dir "preprocessed_data"))
    "nnUNet_results" (os_path_join mount_dir "results")

/-! ## Helper lemmas -/

theorem requestExceptionCleanup_eq_none (fs : Option (List Nat)) :
    requestExceptionCleanup fs = none := by
  cases fs <;> rfl

theorem runStream_none (chunks : List (List Nat)) (sErr : Bool) :
    runStream chunks sErr none = (chunks.flatten, if sErr then .netErr else .ok) := by
  induction chunks with
  | nil => rfl
  | cons c cs ih => simp [runStream, ih, List.flatten_cons]

theorem runStream_some (sErr : Bool) :
    ∀ (chunks : List (List Nat)) (i : Nat), i < chunks.length →
      runStream chunks sErr (some i) = ((chunks.take i).flatten, .ioErr) := by
  intro chunks
  induction chunks with
  | nil => intro i h; simp at h
  | cons c cs ih =>
    intro i h
    cases i with
    | zero => rfl
    | succ n =>
      have hn : n < cs.length := by simpa using h
      simp [runStream, ih n hn, List.flatten_cons]

theorem iterContentAux_flatten :
    ∀ (fuel : Nat) (b : List Nat), b.length ≤ fuel → (iterContentAux fuel b).flatten = b := by
  intro fuel
  induction fuel with
  | zero =>
    intro b hb
    have : b = [] := List.length_eq_zero.mp (Nat.le_zero.mp hb)
    simp [this, iterContentAux]
  | succ f ih =>
    intro b hb
    by_cases hbe : b = []
    · simp [iterContentAux, hbe]
    · have h1 : 0 < b.length := List.length_pos.mpr hbe
      have h2 : (b.drop 1024).length ≤ f := by
        rw [List.length_drop]; omega
      rw [iterContentAux, if_neg hbe, List.flatten_cons, ih (b.drop 1024) h2,
        List.take_append_drop]

theorem iterContentAux_mem_length :
    ∀ (fuel : Nat) (b c : List Nat), c ∈ iterContentAux fuel b → c.length ≤ 1024 := by
  intro fuel
  induction fuel with
  | zero => intro b c hc; simp [iterContentAux] at hc
  | succ f ih =>
    intro b c hc
    rw [iterContentAux] at hc
    by_cases hbe : b = []
    · rw [if_pos hbe] at hc; simp at hc
    · rw [if_neg hbe] at hc
      rcases List.mem_cons.mp hc with h | h
      · subst h
        rw [List.length_take]
        exact min_le_left _ _
      · exact ih (b.drop 1024) c h

theorem iter_content_flatten (body : List Nat) : (iter_content body).flatten = body :=
  iterContentAux_flatten _ _ le_rfl

theorem sdStage1_success (env : SDEnv) (s : SDState)
    (h : (sdStage1 env s).zip_success = true) :
    (sdStage1 env s).s.zipExtractNonEmpty = true := by
  unfold sdStage1 at h ⊢
  by_cases h1 : s.zipExtractNonEmpty = true
  · rw [if_pos h1]; exact h1
  · rw [if_neg h1] at h ⊢
    by_cases h2 : env.zipDownloadOk = true
    · rw [if_pos h2] at h ⊢
      by_cases h3 : env.zipExtractOk = true
      · rw [if_pos h3] at h ⊢
        by_cases h4 : env.zipRemoveOk = true
        · rw [if_pos h4]
        · rw [if_neg h4]
      · rw [if_neg h3] at h; simp at h
    · rw [if_neg h2] at h; simp at h

theorem gmProcess_requests (oc : ResourceOutcome) (r : Resource) (s : GMState) :
    (gmProcess oc r s).requests = s.requests ++ [r.URL] := by
  cases hdl : oc.dlOk <;> cases hex : oc.extractOk <;> cases hrm : oc.removeOk <;>
    simp [gmProcess, hdl, hex, hrm]

theorem gmLoop_requests (o : Resource → ResourceOutcome) :
    ∀ (l : List Resource) (s : GMState),
      (gmLoop o l s).requests = s.requests ++ l.map Resource.URL := by
  intro l
  induction l with
  | nil => intro s; simp [gmLoop]
  | cons r rs ih =>
    intro s
    rw [gmLoop, ih, gmProcess_requests]
    simp

theorem gmProcess_tar_of_dlFail (oc : ResourceOutcome) (r : Resource) (s : GMState)
    (h : oc.dlOk = false) : (gmProcess oc r s).tar_success = s.tar_success := by
  simp [gmProcess, h]

theorem gmLoop_tar_of_dlFail (o : Resource → ResourceOutcome)
    (h : ∀ r, (o r).dlOk = false) :
    ∀ (l : List Resource) (s : GMState), (gmLoop o l s).tar_success = s.tar_success := by
  intro l
  induction l with
  | nil => intro s; rfl
  | cons r rs ih =>
    intro s
    rw [gmLoop, ih, gmProcess_tar_of_dlFail _ _ _ (h r)]

theorem get_models_state (o : Resource → ResourceOutcome) (fs0 ex0 : String → Bool) :
    (get_models o fs0 ex0).state = gmLoop o FILES_TO_DOWNLOAD ⟨fs0, ex0, none, []⟩ := by
  unfold get_models
  cases h : (gmLoop o FILES_TO_DOWNLOAD ⟨fs0, ex0, none, []⟩).tar_success <;>
    simp [GMResult.state]

/-! ## Claim theorems -/

/-- C1, counterexample: the claim says every streaming failure — network or
local write error — leaves no file at `save_path`.  But when the write of the
first chunk raises `IOError` (a local write error), `download_file` returns
`False` through the `except IOError` handler, which performs no cleanup: the
destination file created by `open(save_path, 'wb')` (here truncated to empty
by the failed first write) still exists. -/
theorem claim_C1_counterexample :
    download_file ⟨.response 200 none [5] false, some 0⟩ none = (false, some []) := by
  decide

/-- C1, amended: after a failed `download_file`, the destination file is
deleted only when the failure was a `RequestException` (connection error,
bad status from `raise_for_status`, or a network error mid-stream); a local
write error (`IOError`) returns `False` but leaves the partially written
file — the chunks written before the failing write — in place. -/
theorem claim_C1_amended (status : Nat) (cl : Option Nat) (body : List Nat)
    (sErr : Bool) (init : Option (List Nat)) (wf : Option Nat) (i : Nat) :
    download_file ⟨.requestError, wf⟩ init = (false, none) ∧
    (400 ≤ status → download_file ⟨.response status cl body sErr, wf⟩ init = (false, none)) ∧
    (status < 400 → download_file ⟨.response status cl body true, none⟩ init = (false, none)) ∧
    (status < 400 → i < (iter_content body).length →
      download_file ⟨.response status cl body sErr, some i⟩ init
        = (false, some ((iter_content body).take i).flatten)) := by
  refine ⟨?_, ?_, ?_, ?_⟩
  · show (false, requestExceptionCleanup init) = (false, none)
    rw [requestExceptionCleanup_eq_none]
  · intro h
    show (if 400 ≤ status then _ else _) = _
    rw [if_pos h, requestExceptionCleanup_eq_none]
  · intro h
    show (if 400 ≤ status then _ else _) = _
    rw [if_neg (by omega), runStream_none]
    simp [finishStream, requestExceptionCleanup]
  · intro h hi
    show (if 400 ≤ status then _ else _) = _
    rw [if_neg (by omega), runStream_some sErr _ i hi]
    rfl

/-- Witness for `claim_C1_amended` at concrete inputs: a connection error
with a pre-existing file, a 404, a mid-stream network error, and a write
error at chunk 0 of a one-byte body. -/
theorem claim_C1_witness :
    download_file ⟨.requestError, none⟩ (some [9]) = (false, none) ∧
    download_file ⟨.response 404 none [5] false, none⟩ (some [9]) = (false, none) ∧
    download_file ⟨.response 200 none [5] true, none⟩ (some [9]) = (false, none) ∧
    download_file ⟨.response 200 none [5] false, some 0⟩ (some [9])
      = (false, some ((iter_content [5]).take 0).flatten) := by
  have h := claim_C1_amended 200 none [5] false (some [9]) none 0
  have h404 := claim_C1_amended 404 none [5] false (some [9]) none 0
  exact ⟨h.1, h404.2.1 (by decide), h.2.2.1 (by decide),
    h.2.2.2 (by decide) (by decide)⟩

/-- C7: on a non-success response status (`raise_for_status` raises for any
status `≥ 400`), `download_file` returns `False`; the status check happens
before the destination file is opened, so with no pre-existing file nothing
is ever created at `save_path`. -/
theorem claim_C7 (status : Nat) (cl : Option Nat) (body : List Nat) (sErr : Bool)
    (wf : Option Nat) (h : 400 ≤ status) :
    download_file ⟨.response status cl body sErr, wf⟩ none = (false, none) := by
  show (if 400 ≤ status then _ else _) = _
  rw [if_pos h]
  rfl

/-- Witness for `claim_C7`: a 404 response creates no file. -/
theorem claim_C7_witness :
    download_file ⟨.response 404 none [1, 2] false, none⟩ none = (false, none) :=
  claim_C7 404 none [1, 2] false none (by decide)

/-- C8: when the response status is a success and the body streams to
completion with no write error, `download_file` returns `True` and the file
at `save_path` contains exactly the response body bytes; the body is written
in chunks of at most the fixed block size 1024. -/
theorem claim_C8 (status : Nat) (cl : Option Nat) (body : List Nat)
    (init : Option (List Nat)) (h : status < 400) :
    download_file ⟨.response status cl body false, none⟩ init = (true, some body) ∧
    ∀ c ∈ iter_content body, c.length ≤ 1024 := by
  constructor
  · show (if 400 ≤ status then _ else _) = _
    rw [if_neg (by omega), runStream_none, iter_content_flatten]
    rfl
  · intro c hc
    exact iterContentAux_mem_length _ _ _ hc

/-- Witness for `claim_C8`: the spec scenario — a 200 response with
`content-length: 1024` and a 1024-byte body — returns `True` with a file of
size 1024 on disk; and a small body's single chunk is within the 1024-byte
block size. -/
theorem claim_C8_witness :
    download_file ⟨.response 200 (some 1024) (List.replicate 1024 7) false, none⟩ none
      = (true, some (List.replicate 1024 7)) ∧
    (List.replicate 1024 7 : List Nat).length = 1024 ∧
    ([3, 4] : List Nat).length ≤ 1024 := by
  refine ⟨(claim_C8 200 (some 1024) (List.replicate 1024 7) none (by decide)).1,
    by rw [List.length_replicate], (claim_C8 200 none [3, 4] none (by decide)).2 [3, 4] ?_⟩
  show [3, 4] ∈ iter_content [3, 4]
  decide

/-- C3, counterexample: the claim says both extractors check that the
archive exists before attempting extraction and signal a dedicated
"not found" failure.  `extract_zip` does neither: on a missing archive it
(a) reports the failure through the same catch-all `except Exception`
outcome that a permission failure also produces — not a dedicated not-found
reason — and (b) has already created the target directory
(`os.makedirs` runs before `zipfile.ZipFile`), so extraction was attempted
with no prior existence check. -/
theorem claim_C3_counterexample :
    (extract_zip ⟨none, false, [], true⟩).2.1 = ZipOutcome.genericError ∧
    (extract_zip ⟨some (.valid ["entry"]), false, [], false⟩).2.1 = ZipOutcome.genericError ∧
    ((extract_zip ⟨none, false, [], true⟩).2.2).dirExists = true := by
  exact ⟨rfl, rfl, rfl⟩

/-- C3, amended: only the tar.gz extractor validates existence before
attempting extraction — a missing archive yields the dedicated
`FileNotFoundError` outcome, distinct from the corrupt-archive
`tarfile.ReadError` outcome, with the filesystem untouched.  The zip
extractor has no existence pre-check: a missing archive falls into the
catch-all `except Exception` branch (whose outcome still differs from the
corrupt-archive `BadZipFile` outcome) after the target directory has already
been created. -/
theorem claim_C3_amended :
    (∀ (d : Bool) (ex : List String) (w : Bool),
      extract_tar_gz ⟨none, d, ex, w⟩ = (false, .fileNotFound, ⟨none, d, ex, w⟩)) ∧
    (∀ (d : Bool) (ex : List String) (w : Bool),
      (extract_tar_gz ⟨some .corrupt, d, ex, w⟩).2.1 = TarOutcome.readError) ∧
    TarOutcome.fileNotFound ≠ TarOutcome.readError ∧
    (∀ (d : Bool) (ex : List String) (w : Bool),
      extract_zip ⟨none, d, ex, w⟩ = (false, .genericError, ⟨none, true, ex, w⟩)) ∧
    (∀ (d : Bool) (ex : List String) (w : Bool),
      (extract_zip ⟨some .corrupt, d, ex, w⟩).2.1 = ZipOutcome.badZipFile) ∧
    ZipOutcome.genericError ≠ ZipOutcome.badZipFile := by
  refine ⟨fun d ex w => rfl, fun d ex w => rfl, by decide, fun d ex w => rfl,
    fun d ex w => rfl, by decide⟩

/-- C4: when a resource's download succeeds but its extraction fails, the
downloaded archive still exists after the pipeline step.  Neither extractor
ever touches the archive file, and both drivers delete the archive only
inside the successful-extraction branch: `setup_data` aborts with the
archive file still present, and a `get_models` loop iteration leaves the
file at the resource's save path in place. -/
theorem claim_C4_thm :
    (∀ zfs : ZipFS, ((extract_zip zfs).2.2).archive = zfs.archive) ∧
    (∀ tfs : TarFS, ((extract_tar_gz tfs).2.2).archive = tfs.archive) ∧
    (∀ (lv rm pd pl zf pe : Bool),
      setup_data ⟨true, lv, false, rm, pd, pl⟩ ⟨false, zf, pe⟩
        = (.abortedZip ⟨false, true, pe⟩, [ZIP_URL])) ∧
    (∀ (lv rm : Bool) (r : Resource) (s : GMState),
      (gmProcess ⟨true, lv, false, rm⟩ r s).fileExists r.NAME = true) := by
  refine ⟨?_, ?_, ?_, ?_⟩
  · intro zfs
    rcases zfs with ⟨_ | ⟨_ | entries⟩, d, ex, w⟩ <;> cases w <;> rfl
  · intro tfs
    rcases tfs with ⟨_ | ⟨_ | entries⟩, d, ex, w⟩ <;> cases w <;> rfl
  · intro lv rm pd pl zf pe
    rfl
  · intro lv rm r s
    show updateKey s.fileExists r.NAME true r.NAME = true
    simp [updateKey]

/-- C5: for a fully successfully processed resource (download succeeds, then
extraction succeeds), the archive file is deleted while the extracted
contents remain, and the resource is counted as successfully processed; if
`os.remove` itself fails, the failure is only logged and the resource is
still counted as successfully processed.  Stated for both drivers. -/
theorem claim_C5_thm :
    (∀ (lv rm pd pl zf pe : Bool),
      (setup_data ⟨true, lv, true, rm, pd, pl⟩ ⟨false, zf, pe⟩).1.zipOk = true ∧
      (setup_data ⟨true, lv, true, rm, pd, pl⟩ ⟨false, zf, pe⟩).1.state.zipExtractNonEmpty
        = true) ∧
    (∀ (lv pd pl zf pe : Bool),
      (setup_data ⟨true, lv, true, true, pd, pl⟩ ⟨false, zf, pe⟩).1.state.zipFileExists
        = false) ∧
    (∀ (lv : Bool) (r : Resource) (s : GMState),
      (gmProcess ⟨true, lv, true, true⟩ r s).tar_success = some true ∧
      (gmProcess ⟨true, lv, true, true⟩ r s).extracted r.NAME = true ∧
      (gmProcess ⟨true, lv, true, true⟩ r s).fileExists r.NAME = false) ∧
    (∀ (lv : Bool) (r : Resource) (s : GMState),
      (gmProcess ⟨true, lv, true, false⟩ r s).tar_success = some true ∧
      (gmProcess ⟨true, lv, true, false⟩ r s).extracted r.NAME = true) := by
  refine ⟨?_, ?_, ?_, ?_⟩
  · intro lv rm pd pl zf pe
    cases rm <;> cases pe <;> cases pd <;> exact ⟨rfl, rfl⟩
  · intro lv pd pl zf pe
    cases pe <;> cases pd <;> rfl
  · intro lv r s
    refine ⟨rfl, ?_, ?_⟩ <;> simp [gmProcess, updateKey]
  · intro lv r s
    refine ⟨rfl, ?_⟩
    simp [gmProcess, updateKey]

/-- C6: the dataset-zip stage of `setup_data` is a hard gate.  Whether the
zip download fails or the zip extraction fails, the run ends at the early
`return` (line 131): the only URL ever requested is `ZIP_URL`, so no network
request for `PTH_URL` is issued and the PTH stage never runs. -/
theorem claim_C6_thm :
    (∀ (lv ex rm pd pl zf pe : Bool),
      setup_data ⟨false, lv, ex, rm, pd, pl⟩ ⟨false, zf, pe⟩
        = (.abortedZip ⟨false, lv, pe⟩, [ZIP_URL])) ∧
    (∀ (lv rm pd pl zf pe : Bool),
      setup_data ⟨true, lv, false, rm, pd, pl⟩ ⟨false, zf, pe⟩
        = (.abortedZip ⟨false, true, pe⟩, [ZIP_URL])) ∧
    PTH_URL ∉ ([ZIP_URL] : List String) := by
  refine ⟨fun lv ex rm pd pl zf pe => rfl, fun lv rm pd pl zf pe => rfl, ?_⟩
  intro hmem
  rw [List.mem_singleton] at hmem
  exact absurd hmem (by decide)

/-- C2, counterexample: the claim says both fetch drivers skip already
present resources, so a second run after a fully successful first run
performs zero network requests.  `get_models` has no skip check at all:
even when every archive is already on disk and extracted (the state a
successful first run leaves behind) and every external call succeeds, a run
issues one network request per resource — six requests, not zero. -/
theorem claim_C2_counterexample :
    ((get_models (fun _ => ⟨true, false, true, true⟩) (fun _ => true)
        (fun _ => true)).state.requests).length = 6 ∧
    ((get_models (fun _ => ⟨true, false, true, true⟩) (fun _ => true)
        (fun _ => true)).state.requests) ≠ [] := by
  rw [get_models_state, gmLoop_requests]
  exact ⟨rfl, by decide⟩

/-- C2, amended: the idempotence property holds for the dataset setup driver
only.  After a run of `setup_data` that completes with both stages
successful, a second run performs zero network requests: the zip stage is
skipped by the exists-and-non-empty directory check and the PTH stage by its
exists-only file check.  The model download driver `get_models` has no skip
check: every run requests every resource's URL exactly once. -/
theorem claim_C2_amended (env env' : SDEnv) (s s' : SDState) (reqs : List String)
    (h : setup_data env s = (.completed s' true true, reqs)) :
    setup_data env' s' = (.completed s' true true, []) ∧
    ∀ (o : Resource → ResourceOutcome) (fs0 ex0 : String → Bool),
      (get_models o fs0 ex0).state.requests = FILES_TO_DOWNLOAD.map Resource.URL := by
  have hfields : s'.zipExtractNonEmpty = true ∧ s'.pthExists = true := by
    unfold setup_data at h
    split at h
    next hz => simp at h
    next hz =>
      have hzt : (sdStage1 env s).zip_success = true := by
        revert hz; cases (sdStage1 env s).zip_success <;> simp
      have hnz := sdStage1_success env s hzt
      split at h
      next hp =>
        simp only [Prod.mk.injEq, SDResult.completed.injEq] at h
        obtain ⟨⟨h1, -, -⟩, -⟩ := h
        exact ⟨h1 ▸ hnz, h1 ▸ hp⟩
      next hp =>
        split at h
        next hpd =>
          simp only [Prod.mk.injEq, SDResult.completed.injEq] at h
          obtain ⟨⟨h1, -, -⟩, -⟩ := h
          constructor
          · rw [← h1]; exact hnz
          · rw [← h1]
        next hpd => simp at h
  have hs1 : sdStage1 env' s' = ⟨s', true, []⟩ := by
    unfold sdStage1
    rw [if_pos hfields.1]
  constructor
  · unfold setup_data
    rw [hs1]
    dsimp only
    rw [if_neg (by decide), if_pos hfields.2]
  · intro o fs0 ex0
    rw [get_models_state, gmLoop_requests]
    rfl

/-- Witness for `claim_C2_amended`: a concrete fully successful first run of
`setup_data` from an empty filesystem, after which the second run completes
with both stages successful and requests no URL. -/
theorem claim_C2_witness :
    setup_data ⟨true, false, true, true, true, false⟩ ⟨true, false, true⟩
      = (.completed ⟨true, false, true⟩ true true, []) ∧
    (get_models (fun _ => ⟨false, false, false, false⟩) (fun _ => false)
        (fun _ => false)).state.requests = FILES_TO_DOWNLOAD.map Resource.URL := by
  have h := claim_C2_amended ⟨true, false, true, true, true, false⟩
    ⟨true, false, true, true, true, false⟩ ⟨false, false, false⟩ ⟨true, false, true⟩
    [ZIP_URL, PTH_URL] rfl
  exact ⟨h.1, h.2 _ _ _⟩

/-- C9: `set_environment_variables` sets exactly the three variables
`nnUNet_raw`, `nnUNet_preprocessed` and `nnUNet_results` to the `raw_data`,
`preprocessed_data` and `results` paths under the configured mount
directory, and leaves every other environment variable unchanged. -/
theorem claim_C9_thm (mount : String) (env : String → Option String) :
    set_environment_variables mount env "nnUNet_raw"
      = some (os_path_join mount "raw_data") ∧
    set_environment_variables mount env "nnUNet_preprocessed"
      = some (os_path_join mount "preprocessed_data") ∧
    set_environment_variables mount env "nnUNet_results"
      = some (os_path_join mount "results") ∧
    ∀ k : String, k ≠ "nnUNet_raw" → k ≠ "nnUNet_preprocessed" →
      k ≠ "nnUNet_results" → set_environment_variables mount env k = env k := by
  refine ⟨?_, ?_, ?_, ?_⟩
  · simp only [set_environment_variables, setEnvItem]
    rw [if_neg (by decide), if_neg (by decide), if_pos trivial]
  · simp only [set_environment_variables, setEnvItem]
    rw [if_neg (by decide), if_pos trivial]
  · simp only [set_environment_variables, setEnvItem]
    rw [if_pos trivial]
  · intro k h1 h2 h3
    simp only [set_environment_variables, setEnvItem]
    rw [if_neg h3, if_neg h2, if_neg h1]

/-- Witness for `claim_C9_thm` at a concrete mount directory and
environment: the three variables are set and an unrelated variable is
untouched. -/
theorem claim_C9_witness :
    set_environment_variables "/mnt" (fun q => if q = "HOME" then some "/root" else none)
        "nnUNet_raw" = some (os_path_join "/mnt" "raw_data") ∧
    set_environment_variables "/mnt" (fun q => if q = "HOME" then some "/root" else none)
        "HOME" = some "/root" := by
  have h := claim_C9_thm "/mnt" (fun q => if q = "HOME" then some "/root" else none)
  refine ⟨h.1, ?_⟩
  rw [h.2.2.2 "HOME" (by decide) (by decide) (by decide), if_pos rfl]

/-- C10: in `get_models`, if no resource ever reaches the extraction step —
for example every `download_file` call returns `False` — the local variable
`tar_success` is never assigned, so the final `if not tar_success` read
raises `UnboundLocalError` instead of logging a summary and returning. -/
theorem claim_C10_thm (o : Resource → ResourceOutcome) (fs0 ex0 : String → Bool)
    (h : ∀ r, (o r).dlOk = false) :
    (get_models o fs0 ex0).isUnbound = true := by
  have ht : (gmLoop o FILES_TO_DOWNLOAD ⟨fs0, ex0, none, []⟩).tar_success = none :=
    gmLoop_tar_of_dlFail o h FILES_TO_DOWNLOAD ⟨fs0, ex0, none, []⟩
  unfold get_models
  rw [ht]
  rfl

/-- Witness for `claim_C10_thm`: every download fails, so the run ends in
`UnboundLocalError`. -/
theorem claim_C10_witness :
    (get_models (fun _ => ⟨false, false, false, false⟩) (fun _ => false)
        (fun _ => false)).isUnbound = true :=
  claim_C10_thm _ _ _ (fun _ => rfl)

/-- Witness for `claim_C3_amended` at concrete filesystem states: a missing
tar archive yields the dedicated not-found outcome with no side effect,
while a missing zip archive yields the generic outcome with the target
directory created. -/
theorem claim_C3_witness :
    extract_tar_gz ⟨none, false, [], true⟩ = (false, .fileNotFound, ⟨none, false, [], true⟩) ∧
    extract_zip ⟨none, false, [], true⟩ = (false, .genericError, ⟨none, true, [], true⟩) := by
  have h := claim_C3_amended
  exact ⟨h.1 false [] true, h.2.2.2.1 false [] true⟩

/-- Witness for `claim_C4_thm` at concrete inputs: a corrupt zip archive is
left in place by `extract_zip`, a failing tar extraction leaves the archive
untouched, an aborted `setup_data` run keeps the downloaded zip on disk, and
a `get_models` step with failing extraction keeps the resource's file. -/
theorem claim_C4_witness :
    ((extract_zip ⟨some .corrupt, true, [], true⟩).2.2).archive = some .corrupt ∧
    ((extract_tar_gz ⟨some .corrupt, true, [], true⟩).2.2).archive = some .corrupt ∧
    setup_data ⟨true, false, false, true, true, false⟩ ⟨false, false, false⟩
      = (.abortedZip ⟨false, true, false⟩, [ZIP_URL]) ∧
    (gmProcess ⟨true, false, false, true⟩ ⟨"u", "n"⟩
        ⟨fun _ => false, fun _ => false, none, []⟩).fileExists "n" = true := by
  have h := claim_C4_thm
  exact ⟨h.1 _, h.2.1 _, h.2.2.1 false true true false false false,
    h.2.2.2 false true ⟨"u", "n"⟩ _⟩

/-- Witness for `claim_C5_thm` at concrete inputs: a fully successful
`setup_data` run deletes the archive, keeps the extracted contents and
counts the zip stage as successful, and a fully successful `get_models` step
does the same for its resource. -/
theorem claim_C5_witness :
    (setup_data ⟨true, false, true, true, true, false⟩ ⟨false, false, false⟩).1.zipOk
      = true ∧
    (setup_data ⟨true, false, true, true, true, false⟩
        ⟨false, false, false⟩).1.state.zipFileExists = false ∧
    (gmProcess ⟨true, false, true, true⟩ ⟨"u", "n"⟩
        ⟨fun _ => true, fun _ => false, none, []⟩).tar_success = some true ∧
    (gmProcess ⟨true, false, true, false⟩ ⟨"u", "n"⟩
        ⟨fun _ => true, fun _ => false, none, []⟩).tar_success = some true := by
  have h := claim_C5_thm
  exact ⟨(h.1 false false true true false false).1, h.2.1 false true false false false,
    (h.2.2.1 false ⟨"u", "n"⟩ _).1, (h.2.2.2 false ⟨"u", "n"⟩ _).1⟩

/-- Witness for `claim_C6_thm` at concrete inputs: a failed zip download and
a failed zip extraction each abort the run with only `ZIP_URL` requested. -/
theorem claim_C6_witness :
    setup_data ⟨false, false, true, true, true, false⟩ ⟨false, false, false⟩
      = (.abortedZip ⟨false, false, false⟩, [ZIP_URL]) ∧
    setup_data ⟨true, false, false, true, true, false⟩ ⟨false, false, false⟩
      = (.abortedZip ⟨false, true, false⟩, [ZIP_URL]) := by
  have h := claim_C6_thm
  exact ⟨h.1 false true true true false false false, h.2.1 false true true false false false⟩
